import Mathlib

/-!
# LRS backend — verification of the pick-selection pipeline

Shallow embedding of `src/main.py` (a FastAPI restaurant-recommendation
backend).  Pure helpers are translated directly; the effectful provider
calls (Google Places text search, geocoding, review fetch) are modelled as
functions carried by an `Env` record, and the `/lrs` endpoint is modelled
as a pure function of that record which additionally reports the list of
candidate-search calls it issued and the category-lock fallback flags it
computed (the source exposes the same flags in its `debug` object).

Transcendental / hash / float-formatting primitives of the source
(`math.log10`, the haversine trigonometry, the md5-based
`stable_pick_index`, `requests.utils.quote`, Python's `round`) are
abstracted as fields of `Env`; every theorem below holds for every
instantiation of those fields.
-/

namespace LRS

/-- ASCII whitespace as stripped by Python `str.strip()` and matched by `\s`. -/
def isSpaceChar (c : Char) : Bool :=
  c == ' ' || c == '\t' || c == '\n' || c == '\r' || c == '\x0b' || c == '\x0c'

/-- Python `str.lower()` (ASCII). -/
def strLower (s : String) : String := ⟨s.data.map Char.toLower⟩

/-- Python `str.upper()` (ASCII). -/
def strUpper (s : String) : String := ⟨s.data.map Char.toUpper⟩

def trimList (l : List Char) : List Char :=
  ((l.dropWhile isSpaceChar).reverse.dropWhile isSpaceChar).reverse

/-- Python `str.strip()`. -/
def pyStrip (s : String) : String := ⟨trimList s.data⟩

def isPrefixList : List Char → List Char → Bool
  | [], _ => true
  | _ :: _, [] => false
  | a :: as, b :: bs => a == b && isPrefixList as bs

def containsAux : List Char → List Char → Bool
  | [], _ => false
  | c :: rest, sub => isPrefixList sub (c :: rest) || containsAux rest sub

/-- Python substring test `sub in s`. -/
def containsSub (s sub : String) : Bool :=
  if sub.data.isEmpty then true else containsAux s.data sub.data

def countSubAux : Nat → List Char → List Char → Nat
  | 0, _, _ => 0
  | _ + 1, [], _ => 0
  | fuel + 1, c :: rest, sub =>
    if isPrefixList sub (c :: rest) then
      1 + countSubAux fuel (List.drop (sub.length - 1) rest) sub
    else countSubAux fuel rest sub

/-- Python `str.count`: number of non-overlapping occurrences, scanning left
to right (for an empty needle Python returns `len(s) + 1`). -/
def countSubstr (s sub : String) : Nat :=
  if sub.data.isEmpty then s.data.length + 1
  else countSubAux s.data.length s.data sub.data

def isWordChar (c : Char) : Bool :=
  (decide ('a' ≤ c) && decide (c ≤ 'z')) || (decide ('0' ≤ c) && decide (c ≤ '9'))

def wordsAux : List Char → List Char → List (List Char)
  | [], acc => if acc.isEmpty then [] else [acc.reverse]
  | c :: rest, acc =>
    if isSpaceChar c then
      if acc.isEmpty then wordsAux rest [] else acc.reverse :: wordsAux rest []
    else wordsAux rest (c :: acc)

def joinWithSpace : List (List Char) → List Char
  | [] => []
  | [w] => w
  | w :: ws => w ++ ' ' :: joinWithSpace ws

/-- Model of `normalize_text`: lowercase, replace every character
outside `[a-z0-9\s]` with a space, collapse whitespace runs, strip. -/
def normalizeText (s : String) : String :=
  let mapped := s.data.map (fun c =>
    let lc := Char.toLower c
    if isWordChar lc || isSpaceChar lc then lc else ' ')
  ⟨joinWithSpace (wordsAux mapped [])⟩

/-- Python `sep.join(list)`. -/
def joinStrings (sep : String) : List String → String
  | [] => ""
  | [s] => s
  | s :: rest => s ++ sep ++ joinStrings sep rest
def CHAIN_HINTS : List String := [
  "mcdonald",
  "starbucks",
  "chipotle",
  "subway",
  "taco bell",
  "kfc",
  "wendy",
  "burger king",
  "domino",
  "pizza hut",
  "panera",
  "dunkin",
  "ihop",
  "applebee",
  "olive garden",
  "outback",
  "red lobster",
  "buffalo wild wings",
  "cheesecake factory",
  "yard house",
  "sport clips",
  "supercuts",
  "great clips",
  "cvs",
  "walgreens"]

def DISH_ALIASES : List (String × String) := [
  ("pho", "vietnamese"),
  ("pho tai", "vietnamese"),
  ("pho ga", "vietnamese"),
  ("pho dac biet", "vietnamese"),
  ("bun bo hue", "vietnamese"),
  ("banh mi", "vietnamese"),
  ("birria", "mexican"),
  ("quesabirria", "mexican"),
  ("tacos de birria", "mexican"),
  ("al pastor", "mexican"),
  ("carnitas", "mexican"),
  ("carne asada", "mexican"),
  ("ramen", "ramen"),
  ("tonkotsu", "ramen"),
  ("shoyu", "ramen"),
  ("miso ramen", "ramen"),
  ("tsukemen", "ramen"),
  ("sushi", "sushi"),
  ("omakase", "sushi"),
  ("nigiri", "sushi"),
  ("sashimi", "sushi"),
  ("hand roll", "sushi"),
  ("bbq", "bbq"),
  ("brisket", "bbq"),
  ("ribs", "bbq"),
  ("pulled pork", "bbq"),
  ("burger", "burgers"),
  ("cheeseburger", "burgers"),
  ("smashburger", "burgers")]

def CUISINE_TYPE_LOCK : List (String × List String) := [
  ("pizza", ["pizza_restaurant"]),
  ("tacos", ["mexican_restaurant"]),
  ("ramen", ["ramen_restaurant", "japanese_restaurant"]),
  ("sushi", ["sushi_restaurant", "japanese_restaurant"]),
  ("thai", ["thai_restaurant"]),
  ("bbq", ["barbecue_restaurant"]),
  ("breakfast", ["breakfast_restaurant"]),
  ("burgers", ["hamburger_restaurant"]),
  ("pho", ["vietnamese_restaurant"]),
  ("italian", ["italian_restaurant"]),
  ("japanese", ["japanese_restaurant"]),
  ("mexican", ["mexican_restaurant"]),
  ("chinese", ["chinese_restaurant"]),
  ("indian", ["indian_restaurant"]),
  ("american", ["american_restaurant"]),
  ("korean", ["korean_restaurant"]),
  ("french", ["french_restaurant"]),
  ("greek", ["greek_restaurant"]),
  ("mediterranean", ["mediterranean_restaurant"]),
  ("vietnamese", ["vietnamese_restaurant"]),
  ("spanish", ["spanish_restaurant"]),
  ("middle eastern", ["middle_eastern_restaurant"]),
  ("middle_eastern", ["middle_eastern_restaurant"]),
  ("seafood", ["seafood_restaurant"]),
  ("filipino", ["filipino_restaurant"]),
  ("peruvian", ["peruvian_restaurant"]),
  ("cajun", ["cajun_restaurant"]),
  ("cajun/creole", ["cajun_restaurant"]),
  ("creole", ["cajun_restaurant"]),
  ("drinks", ["bar", "cafe", "coffee_shop"]),
  ("barber", ["hair_salon"]),
  ("haircut", ["hair_salon"]),
  ("coffee", ["cafe", "coffee_shop"]),
  ("pharmacy", ["pharmacy"]),
  ("park", ["park"]),
  ("grocery", ["grocery_store", "supermarket"])]

def DISH_KEYWORDS : List (String × List String) := [
  ("tacos", ["tacos",
    "street tacos",
    "birria",
    "quesabirria",
    "al pastor",
    "carnitas",
    "carne asada",
    "pollo asado",
    "barbacoa",
    "lengua",
    "chorizo",
    "fish taco",
    "shrimp taco",
    "breakfast taco",
    "taco plate",
    "burrito",
    "breakfast burrito",
    "california burrito",
    "bean and cheese",
    "quesadilla",
    "mulitas",
    "torta",
    "nachos",
    "chips and salsa",
    "guacamole",
    "salsa",
    "horchata",
    "agua fresca",
    "menudo"]),
  ("mexican", ["tacos",
    "burrito",
    "breakfast burrito",
    "quesadilla",
    "nachos",
    "tamales",
    "enchiladas",
    "fajitas",
    "carne asada",
    "al pastor",
    "carnitas",
    "birria",
    "chile relleno",
    "pozole",
    "menudo",
    "mole",
    "torta",
    "ceviche",
    "coctel de camaron",
    "aguachile",
    "sopes",
    "gorditas",
    "tostadas",
    "chilaquiles",
    "elote",
    "guacamole",
    "salsa",
    "horchata",
    "agua fresca",
    "margarita"]),
  ("italian", ["pizza",
    "margherita",
    "pepperoni",
    "sausage pizza",
    "white pizza",
    "pasta",
    "spaghetti",
    "meatballs",
    "lasagna",
    "bolognese",
    "carbonara",
    "alfredo",
    "pesto",
    "gnocchi",
    "ravioli",
    "fettuccine",
    "penne vodka",
    "cacio e pepe",
    "clam pasta",
    "seafood pasta",
    "chicken parmesan",
    "eggplant parmesan",
    "veal parmesan",
    "bruschetta",
    "caprese",
    "calamari",
    "tiramisu",
    "cannoli",
    "garlic bread",
    "antipasto"]),
  ("pizza", ["pizza",
    "pepperoni",
    "margherita",
    "sausage",
    "meatball",
    "mushroom",
    "white pizza",
    "sicilian",
    "grandma slice",
    "new york slice",
    "deep dish",
    "thin crust",
    "detroit style",
    "wood fired",
    "neapolitan",
    "calzone",
    "stromboli",
    "garlic knots",
    "pepperoni slice",
    "supreme",
    "hawaiian",
    "four cheese",
    "buffalo chicken",
    "pesto",
    "ricotta",
    "prosciutto",
    "veggie pizza",
    "extra crispy",
    "gluten free",
    "slice",
    "pie"]),
  ("japanese", ["ramen",
    "tonkotsu",
    "shoyu",
    "miso ramen",
    "spicy ramen",
    "udon",
    "tempura udon",
    "soba",
    "gyoza",
    "karaage",
    "katsu",
    "tonkatsu",
    "chicken katsu",
    "yakitori",
    "teriyaki",
    "donburi",
    "gyudon",
    "oyakodon",
    "curry",
    "katsu curry",
    "sushi",
    "nigiri",
    "sashimi",
    "hand roll",
    "roll",
    "chirashi",
    "omakase",
    "unagi",
    "matcha",
    "mochi"]),
  ("ramen", ["ramen",
    "tonkotsu",
    "shoyu",
    "miso",
    "spicy ramen",
    "tsukemen",
    "shio",
    "black garlic",
    "chashu",
    "pork belly",
    "soft egg",
    "ajitama",
    "gyoza",
    "karaage",
    "broth",
    "noodles",
    "extra noodles",
    "spicy miso",
    "garlic",
    "corn",
    "butter",
    "narutomaki",
    "bamboo shoots",
    "bean sprouts",
    "rice bowl",
    "donburi",
    "takoyaki",
    "edamame",
    "yakitori",
    "tempura",
    "onigiri"]),
  ("sushi", ["sushi",
    "omakase",
    "nigiri",
    "sashimi",
    "hand roll",
    "spicy tuna",
    "salmon",
    "eel",
    "unagi",
    "yellowtail",
    "hamachi",
    "tuna",
    "maguro",
    "albacore",
    "shrimp",
    "tempura roll",
    "california roll",
    "dragon roll",
    "rainbow roll",
    "uni",
    "ikura",
    "scallop",
    "octopus",
    "sea urchin",
    "miso soup",
    "edamame",
    "gyoza",
    "chirashi",
    "poke",
    "rice bowl",
    "bento"]),
  ("chinese", ["dumplings",
    "potstickers",
    "fried rice",
    "chow mein",
    "lo mein",
    "kung pao chicken",
    "orange chicken",
    "general tso",
    "mapo tofu",
    "sweet and sour",
    "hot and sour soup",
    "wonton soup",
    "wontons",
    "bbq pork",
    "char siu",
    "pork belly",
    "beef and broccoli",
    "egg rolls",
    "spring rolls",
    "dan dan noodles",
    "hand pulled noodles",
    "xiao long bao",
    "soup dumplings",
    "sichuan",
    "spicy",
    "salt and pepper",
    "tea",
    "boba",
    "milk tea",
    "peking duck",
    "scallion pancake"]),
  ("indian", ["butter chicken",
    "tikka masala",
    "chicken tikka",
    "biryani",
    "tandoori",
    "naan",
    "garlic naan",
    "paratha",
    "samosa",
    "pakora",
    "saag",
    "palak paneer",
    "paneer",
    "chana masala",
    "dal",
    "dal makhani",
    "vindaloo",
    "korma",
    "madras",
    "curry",
    "dosa",
    "idli",
    "sambar",
    "chutney",
    "rasam",
    "lamb curry",
    "goat curry",
    "rogan josh",
    "mango lassi",
    "chai"]),
  ("american", ["burger",
    "cheeseburger",
    "smashburger",
    "double burger",
    "fries",
    "onion rings",
    "milkshake",
    "fried chicken",
    "wings",
    "tenders",
    "bbq",
    "brisket",
    "ribs",
    "pulled pork",
    "mac and cheese",
    "biscuits and gravy",
    "pancakes",
    "waffles",
    "french toast",
    "hash browns",
    "breakfast burrito",
    "omelet",
    "eggs benedict",
    "steak",
    "ribeye",
    "prime rib",
    "meatloaf",
    "grilled cheese",
    "chili",
    "clam chowder"]),
  ("burgers", ["burger",
    "cheeseburger",
    "smashburger",
    "double burger",
    "fries",
    "onion rings",
    "milkshake",
    "house burger",
    "classic burger",
    "sliders",
    "loaded fries",
    "garlic fries"]),
  ("bbq", ["bbq",
    "brisket",
    "ribs",
    "pulled pork",
    "burnt ends",
    "sausage",
    "smoked chicken",
    "tri tip",
    "mac and cheese",
    "coleslaw",
    "baked beans",
    "cornbread"]),
  ("thai", ["pad thai",
    "pad see ew",
    "drunken noodles",
    "tom yum",
    "tom kha",
    "green curry",
    "red curry",
    "panang curry",
    "massaman curry",
    "thai basil",
    "larb",
    "papaya salad",
    "som tam",
    "thai tea"]),
  ("korean", ["kbbq",
    "bulgogi",
    "galbi",
    "bibimbap",
    "kimchi",
    "soondubu",
    "tteokbokki",
    "japchae",
    "kimbap"]),
  ("vietnamese", ["pho",
    "banh mi",
    "spring rolls",
    "vermicelli",
    "com tam",
    "bun bo hue",
    "iced coffee"]),
  ("pho", ["pho",
    "pho tai",
    "pho dac biet",
    "pho ga",
    "bun bo hue",
    "spring rolls",
    "goi cuon",
    "banh mi"]),
  ("greek", ["gyro",
    "souvlaki",
    "hummus",
    "tzatziki",
    "greek salad",
    "baklava"]),
  ("mediterranean", ["shawarma",
    "gyro",
    "falafel",
    "hummus",
    "kebab",
    "pita",
    "tabbouleh",
    "baklava"]),
  ("middle eastern", ["shawarma",
    "falafel",
    "hummus",
    "kebab",
    "kofta",
    "pita",
    "tabbouleh",
    "baklava"]),
  ("middle_eastern", ["shawarma",
    "falafel",
    "hummus",
    "kebab",
    "kofta",
    "pita",
    "tabbouleh",
    "baklava"]),
  ("french", ["croissant",
    "baguette",
    "quiche",
    "crepe",
    "steak frites",
    "escargot"]),
  ("spanish", ["tapas",
    "paella",
    "patatas bravas",
    "croquetas",
    "sangria"]),
  ("seafood", ["shrimp",
    "lobster",
    "crab",
    "oysters",
    "clam chowder",
    "fish and chips",
    "ceviche"]),
  ("cajun", ["gumbo",
    "jambalaya",
    "po boy",
    "etouffee",
    "red beans and rice"]),
  ("cajun/creole", ["gumbo",
    "jambalaya",
    "po boy",
    "etouffee",
    "red beans and rice"]),
  ("creole", ["gumbo",
    "jambalaya",
    "po boy",
    "etouffee",
    "red beans and rice"]),
  ("filipino", ["adobo",
    "sinigang",
    "sisig",
    "lechon",
    "pancit",
    "lumpia",
    "halo halo"]),
  ("peruvian", ["ceviche",
    "lomo saltado",
    "aji de gallina",
    "pollo a la brasa",
    "pisco sour"]),
  ("breakfast", ["pancakes",
    "waffles",
    "french toast",
    "omelet",
    "eggs benedict",
    "breakfast burrito",
    "coffee"]),
  ("steak", ["ribeye",
    "filet mignon",
    "prime rib",
    "steak frites"]),
  ("fried chicken", ["fried chicken",
    "chicken sandwich",
    "wings",
    "tenders"]),
  ("drinks", ["coffee",
    "iced coffee",
    "cold brew",
    "latte",
    "cappuccino",
    "espresso",
    "americano",
    "matcha",
    "chai",
    "boba",
    "milk tea",
    "thai tea",
    "lemonade",
    "agua fresca",
    "horchata",
    "smoothie",
    "shake",
    "milkshake",
    "mocktail",
    "cocktail",
    "margarita",
    "paloma",
    "mojito",
    "old fashioned",
    "martini",
    "negroni",
    "spritz",
    "beer",
    "craft beer",
    "ipa"])]

def HYPE_DISTANCE_LINES : List String := [
  "Popularity isn’t always neighborhood-bound.",
  "Popular spots often draw people from farther away.",
  "Hype isn’t always right around the corner.",
  "This kind of popularity isn’t always local.",
  "This kind of buzz isn’t always local."]

def ORDER_SENTENCE_OPTIONS : List String := [
  "Most people mention this",
  "Commonly mentioned by regulars",
  "Shows up often when locals talk about this place",
  "Mentioned repeatedly in reviews",
  "A frequent favorite among locals",
  "This is what people tend to order here",
  "This comes up a lot when locals talk about the place"]

def NON_FOOD_CATEGORIES : List String :=
  ["barber", "haircut", "coffee", "pharmacy", "park", "grocery", "drinks"]

/-- Model of `mode_label`. -/
def modeLabel (mode : String) : String :=
  let m := pyStrip (strLower mode)
  if m = "strict" then "Top Local Picks"
  else if m = "best" then "Best Available"
  else if m = "hype" then "Hype"
  else "Unknown"

/-- Model of `miles_to_meters`, i.e. `int(miles * 1609.344)`; Python `int()`
truncates toward zero.  For `miles = num/den` the exact product with
`1609344/1000` is `(num * 1609344) / (den * 1000)`, so truncating that
quotient toward zero (`Int.tdiv`) is the same function; it is written this
way because `Rat.mul` is `@[irreducible]` and would block kernel
evaluation. -/
def milesToMeters (miles : Rat) : Int :=
  Int.tdiv (miles.num * 1609344) ((miles.den : Int) * 1000)

/-- Model of `meters_to_miles`. -/
def metersToMiles (meters : Rat) : Rat := meters / mkRat 1609344 1000

/-- Model of `is_chain`: case-insensitive substring match against the chain blocklist. -/
def isChain (name : String) : Bool :=
  let n := strLower name
  CHAIN_HINTS.any (fun c => containsSub n c)

/-- Model of `confidence_label`. -/
def confidenceLabel (rating : Rat) (reviews : Nat) : String :=
  if mkRat 45 10 ≤ rating ∧ 300 ≤ reviews then "High"
  else if mkRat 43 10 ≤ rating ∧ 100 ≤ reviews then "Med"
  else "Low"

/-- Model of `confidence_explainer`. -/
def confidenceExplainer (label : String) : String :=
  if label = "High" then "High = lots of reviews + very strong rating."
  else if label = "Med" then "Med = good rating with some real review depth."
  else "Low = fewer reviews. Could still be great, just less proof."

/-- Model of `hype_reason`: fixed, ordered, first-match-wins tiers. -/
def hypeReason (rating : Rat) (reviews : Nat) : String :=
  if 1500 ≤ reviews ∧ mkRat 44 10 ≤ rating then "Big buzz: tons of reviews + very high rating."
  else if 800 ≤ reviews then "Popular spot: lots of reviews (people talk about it)."
  else if mkRat 46 10 ≤ rating ∧ 200 ≤ reviews then "High rating + solid review count (strong crowd signal)."
  else if 200 ≤ reviews then "Decent buzz: good review volume for this area."
  else "Some buzz: not huge, but trending-ish locally."

/-- Model of `cuisine_lock_types` (the `None` argument case is folded into the empty
string, matching Python falsiness of the strings it is called with). -/
def cuisineLockTypes (cuisine : String) : Option (List String) :=
  if cuisine = "" then none
  else CUISINE_TYPE_LOCK.lookup (strLower (pyStrip cuisine))

/-- Insert into a descending-sorted list, after any element with an equal or
larger key: this is exactly the placement a stable descending sort gives a
later element. -/
def insertDescBy {α β : Type} [LinearOrder β] (f : α → β) (a : α) : List α → List α
  | [] => [a]
  | b :: l => if f b ≤ f a then a :: b :: l else b :: insertDescBy f a l

/-- Stable descending sort by key, modelling Python
`sorted(xs, key=f, reverse=True)` / `xs.sort(key=f, reverse=True)`. -/
def sortDescBy {α β : Type} [LinearOrder β] (f : α → β) : List α → List α
  | [] => []
  | a :: l => insertDescBy f a (sortDescBy f l)

/-- Model of `most_mentioned_dish`. -/
def mostMentionedDish (reviewTexts : List String) (cuisine : Option String) : Option String :=
  if reviewTexts.isEmpty then none
  else
    let c := strLower (pyStrip (cuisine.getD ""))
    match DISH_KEYWORDS.lookup c with
    | none => none
    | some keywords =>
      if keywords.isEmpty then none
      else
        let joined := joinStrings " " (reviewTexts.map normalizeText)
        let counts := keywords.filterMap (fun kw =>
          let k := normalizeText kw
          if k = "" then none
          else
            let n := countSubstr joined k
            if 0 < n then some (n, kw) else none)
        if counts.isEmpty then none
        else
          match sortDescBy (fun x => x.1) counts with
          | [] => none
          | x :: _ => some x.2


/-- A resolved geographic center (latitude, longitude pair). -/
structure Center where
  latitude : Rat
  longitude : Rat
deriving DecidableEq

/-- One candidate venue as returned by the provider text search, carrying
exactly the fields the source's field mask requests (`displayName` models
`displayName.text`, `openNow` models `currentOpeningHours.openNow`, and
`photos` models the list of photo resource names). -/
structure Place where
  id : Option String
  displayName : Option String
  formattedAddress : Option String
  rating : Option Rat
  userRatingCount : Option Nat
  googleMapsUri : Option String
  primaryType : Option String
  types : List String
  location : Option Center
  businessStatus : Option String
  openNow : Option Bool
  photos : List String
deriving DecidableEq

/-- The effectful collaborators of the endpoint, plus the numeric/hash
primitives that have no faithful shallow embedding: `log10` models
`math.log10`, `haversineM` the trigonometric `haversine_m`, `stableIdx` the
md5-based `stable_pick_index`, `urlQuote` the percent-encoder
`requests.utils.quote`, and `round1` Python's `round(x, 1)` on floats.
Every theorem below holds for every instantiation of these fields. -/
structure Env where
  googleKey : String
  resolveCenter : String → Option Center
  textSearch : String → Option Center → Option Int → List Place
  fetchReviews : String → List String
  log10 : Rat → Rat
  haversineM : Rat → Rat → Rat → Rat → Rat
  stableIdx : String → Nat → Nat
  urlQuote : String → String
  round1 : Rat → Rat

/-- Display name of a place as `build_picks` extracts it. -/
def nameOf (p : Place) : String := pyStrip (p.displayName.getD "")

/-- Rating with the source's `float(p.get("rating") or 0)` default. -/
def ratingOf (p : Place) : Rat := p.rating.getD 0

/-- Review count with the source's `int(p.get("userRatingCount") or 0)` default. -/
def reviewsOf (p : Place) : Nat := p.userRatingCount.getD 0

/-- Model of `key_for`: the stable dedupe key `name||address`, lowercased. -/
def keyFor (p : Place) : String :=
  strLower (pyStrip (p.displayName.getD "")) ++ "||" ++ strLower (pyStrip (p.formattedAddress.getD ""))

/-- Python truthiness of the `allowed_types` value: `None` and the empty set
are falsy. -/
def allowedTruthy : Option (List String) → Bool
  | none => false
  | some l => !l.isEmpty

/-- Model of `matches_type_lock`: a falsy allowed set accepts everything,
otherwise the primary type or any of the type tags must be in the set. -/
def matchesTypeLock (p : Place) (allowed : Option (List String)) : Bool :=
  if !allowedTruthy allowed then true
  else
    let a := allowed.getD []
    let primary := strLower (pyStrip (p.primaryType.getD ""))
    let tys := p.types.map (fun t => strLower (pyStrip t))
    if a.contains primary then true
    else tys.any (fun t => a.contains t)

/-- Model of `is_closed_place`: drop permanently/temporarily closed places
and places whose open-now flag is explicitly false; absent information does
not exclude. -/
def isClosedPlace (p : Place) : Bool :=
  let status := strUpper (pyStrip (p.businessStatus.getD ""))
  if status = "CLOSED_PERMANENTLY" || status = "CLOSED_TEMPORARILY" then true
  else if p.openNow == some false then true
  else false

/-- Model of `score_lrs` (rating dominates, review volume logarithmic). -/
def scoreLrs (env : Env) (p : Place) : Rat :=
  ratingOf p * 2 + env.log10 ((max 1 (reviewsOf p) : Nat) : Rat)

/-- Model of `score_hype` (review volume dominates). -/
def scoreHype (env : Env) (p : Place) : Rat :=
  env.log10 ((max 1 (reviewsOf p) : Nat) : Rat) * 5 + ratingOf p * 1

/-- Model of `why_line`; the phrase index is the abstract `env.stableIdx`
(the numeric formatting inside the hash key differs from Python float repr,
which is immaterial because the index function is abstract). -/
def whyLine (env : Env) (mode name : String) (rating : Rat) (reviews : Nat) : String :=
  let m := pyStrip (strLower mode)
  let key := m ++ "|" ++ name ++ "|" ++ toString rating ++ "|" ++ toString reviews
  if m = "strict" then
    let options := [
      "This feels like a place locals genuinely rely on.",
      "Quiet winner energy — not flashy, just trusted.",
      "If you only try one, start here. It’s the safe local call.",
      "This has the kind of reputation that builds naturally over time.",
      "People keep coming back here — it’s a real local staple."]
    options.getD (env.stableIdx key options.length) ""
  else if m = "best" then
    let options := [
      "A solid everyday choice for this area.",
      "The kind of place someone local would casually recommend.",
      "Dependable energy — not a risk pick.",
      "This fits how people actually eat around here.",
      "If options are limited, this is a sensible call."]
    options.getD (env.stableIdx key options.length) ""
  else
    let options := [
      "This one gets talked about a lot.",
      "More attention than average around here.",
      "The kind of place people mention by name.",
      "If you’re chasing what’s popular, this is the lane.",
      "High visibility spot — it keeps showing up in conversation."]
    options.getD (env.stableIdx key options.length) ""

/-- Model of `order_line` (an empty dish string is falsy in Python and takes
the generic branch). -/
def orderLine (env : Env) (placeName : String) (dish : Option String) : String :=
  match dish with
  | some d =>
    if d = "" then "If you’re unsure, ask what regulars order most."
    else
      let key := "order|" ++ placeName ++ "|" ++ d
      let sentence := ORDER_SENTENCE_OPTIONS.getD (env.stableIdx key ORDER_SENTENCE_OPTIONS.length) ""
      sentence ++ " — " ++ d ++ "."
  | none => "If you’re unsure, ask what regulars order most."

/-- Model of `hype_distance_line`. -/
def hypeDistanceLine (env : Env) (location : String) (cuisine : String) : String :=
  let key := "hype_distance|" ++ strLower (pyStrip location) ++ "|" ++ strLower (pyStrip cuisine)
  HYPE_DISTANCE_LINES.getD (env.stableIdx key HYPE_DISTANCE_LINES.length) ""

/-- One output record of `build_picks`; the narrative `why`/`order` fields
start at their defaults and are filled by the mode orchestrators. -/
structure Pick where
  key : String
  placeId : String
  name : String
  location : String
  rating : Rat
  reviews : Nat
  confidence : String
  confidenceExplainerText : String
  why : String
  order : String
  linksGoogleMaps : String
  linksYelpSearch : String
  alsoInStrict : Bool
  hypeReasonText : String
  distanceMiles : Option Rat
  photoUrl : Option String
deriving DecidableEq

/-- A pick as the endpoint returns it: `key` and `place_id` are popped
before responding. -/
structure OutPick where
  name : String
  location : String
  rating : Rat
  reviews : Nat
  confidence : String
  confidenceExplainerText : String
  why : String
  order : String
  linksGoogleMaps : String
  linksYelpSearch : String
  alsoInStrict : Bool
  hypeReasonText : String
  distanceMiles : Option Rat
  photoUrl : Option String
deriving DecidableEq

/-- Drop the internal-only fields, modelling the two `pop` calls. -/
def popInternal (p : Pick) : OutPick :=
  { name := p.name, location := p.location, rating := p.rating, reviews := p.reviews,
    confidence := p.confidence, confidenceExplainerText := p.confidenceExplainerText,
    why := p.why, order := p.order, linksGoogleMaps := p.linksGoogleMaps,
    linksYelpSearch := p.linksYelpSearch, alsoInStrict := p.alsoInStrict,
    hypeReasonText := p.hypeReasonText, distanceMiles := p.distanceMiles,
    photoUrl := p.photoUrl }

/-- The hard distance gate of `build_picks` (Python truthiness: a zero or
absent radius disables the check; places without coordinates are kept). -/
def distanceOk (env : Env) (center : Option Center) (maxRadiusM : Option Int) (p : Place) : Bool :=
  match center, maxRadiusM with
  | some c, some r =>
    if r = 0 then true
    else
      match p.location with
      | some l =>
        decide (env.haversineM c.latitude c.longitude l.latitude l.longitude ≤ (r : Rat))
      | none => true
  | _, _ => true

/-- The filter stage of `build_picks`, with the source's checks in source
order: closed place, blank name, chain, type lock, quality thresholds, hard
distance cap. -/
def keepPlace (env : Env) (minRating : Rat) (minReviews : Nat)
    (allowed : Option (List String)) (center : Option Center) (maxRadiusM : Option Int)
    (p : Place) : Bool :=
  !isClosedPlace p &&
  nameOf p != "" &&
  !isChain (nameOf p) &&
  matchesTypeLock p allowed &&
  !(decide (ratingOf p < minRating) || decide (reviewsOf p < minReviews)) &&
  distanceOk env center maxRadiusM p

/-- The pick-assembly stage of `build_picks` for one surviving place. -/
def toPick (env : Env) (center : Option Center) (p : Place) : Pick :=
  let name := nameOf p
  let addr := pyStrip (p.formattedAddress.getD "")
  let rating := ratingOf p
  let reviews := reviewsOf p
  let conf := confidenceLabel rating reviews
  let dist : Option Rat :=
    match center with
    | some c =>
      match p.location with
      | some l =>
        some (env.round1 (metersToMiles (env.haversineM c.latitude c.longitude l.latitude l.longitude)))
      | none => none
    | none => none
  let photo : Option String :=
    match p.photos with
    | [] => none
    | ref :: _ =>
      if ref = "" then none
      else some ("https://places.googleapis.com/v1/" ++ ref ++ "/media?maxHeightPx=400&key=" ++ env.googleKey)
  { key := keyFor p,
    placeId := pyStrip (p.id.getD ""),
    name := name,
    location := addr,
    rating := rating,
    reviews := reviews,
    confidence := conf,
    confidenceExplainerText := confidenceExplainer conf,
    why := "",
    order := "If you’re unsure, ask what regulars order most.",
    linksGoogleMaps := p.googleMapsUri.getD "",
    linksYelpSearch := "https://www.yelp.com/search?find_desc=" ++ env.urlQuote (p.displayName.getD "") ++ "&find_loc=" ++ env.urlQuote (p.formattedAddress.getD ""),
    alsoInStrict := false,
    hypeReasonText := hypeReason rating reviews,
    distanceMiles := dist,
    photoUrl := photo }

/-- Model of `build_picks`: filter, stable-sort descending by score,
truncate to 12, assemble. -/
def buildPicks (env : Env) (places : List Place) (minRating : Rat) (minReviews : Nat)
    (sorter : Place → Rat) (allowed : Option (List String))
    (center : Option Center) (maxRadiusM : Option Int) : List Pick :=
  let filtered := places.filter (keepPlace env minRating minReviews allowed center maxRadiusM)
  ((sortDescBy sorter filtered).take 12).map (toPick env center)

/-- Model of `build_with_type_fallback`: when fallback is disabled the
type-locked result is always kept; otherwise a truthy allowed set with a
too-small locked result triggers one unrestricted re-run. -/
def buildWithTypeFallback (env : Env) (places : List Place) (minRating : Rat) (minReviews : Nat)
    (sorter : Place → Rat) (allowed : Option (List String)) (wantAtLeast : Nat)
    (center : Option Center) (maxRadiusM : Option Int) (allowTypeFallback : Bool) :
    List Pick × Bool :=
  let picks := buildPicks env places minRating minReviews sorter allowed center maxRadiusM
  if !allowTypeFallback then (picks, false)
  else if allowedTruthy allowed && decide (picks.length < wantAtLeast) then
    (buildPicks env places minRating minReviews sorter none center maxRadiusM, true)
  else (picks, false)

/-- Model of `prefer_new_first`: keep request order within each group, put
picks not in the strict baseline first, mark overlaps, truncate to 5. -/
def preferNewFirst (picks : List Pick) (strictKeys : List String) : List Pick :=
  let newOnes := picks.filter (fun p => !strictKeys.contains p.key)
  let overlaps := (picks.filter (fun p => strictKeys.contains p.key)).map
    (fun p => { p with alsoInStrict := true })
  (newOnes ++ overlaps).take 5

/-- Model of `add_order_from_reviews` (with `place_reviews`' blank-id guard
inlined; the review cache is semantically transparent). -/
def addOrderFromReviews (env : Env) (picks : List Pick) (cuisine : String) : List Pick :=
  picks.map (fun p =>
    let pid := pyStrip p.placeId
    let texts := if pid = "" then [] else env.fetchReviews pid
    { p with order := orderLine env p.name (mostMentionedDish texts (some cuisine)) })

def STRICT_PRIMARY : Int := milesToMeters 5
def STRICT_MAX : Int := milesToMeters 10
def BEST_PRIMARY : Int := milesToMeters 10
def BEST_MAX : Int := milesToMeters 15
def HYPE_PRIMARY : Int := milesToMeters 10
def HYPE_MAX : Int := milesToMeters 25

/-- One recorded candidate text-search call: query, bias center, bias radius. -/
abbrev SearchCall := String × Option Center × Option Int

/-- The `/lrs` response body (only the fields with decision content; the
diagnostic `debug` object is represented by the trace in `LrsOut`). -/
inductive LrsResponse where
  | err (message : String) : LrsResponse
  | ok (query mode modeLabelText : String) (picks : List OutPick)
      (limitationNote : Option String) : LrsResponse
deriving DecidableEq

/-- The `/lrs` endpoint result together with its effect trace: the candidate
text-search calls issued, and the category-lock fallback flag of every
`build_with_type_fallback` run (the source reports the same flags in its
debug object). -/
structure LrsOut where
  response : LrsResponse
  searchCalls : List SearchCall
  fallbackFlags : List Bool
deriving DecidableEq

def picksOfResponse : LrsResponse → List OutPick
  | LrsResponse.err _ => []
  | LrsResponse.ok _ _ _ picks _ => picks

def limitationOf : LrsResponse → Option String
  | LrsResponse.err _ => none
  | LrsResponse.ok _ _ _ _ lim => lim

/-- The derived per-request values the endpoint computes before dispatching
on the mode, shared by all three modes (lines 969-998 and 1052-1053 of
`src/main.py`). -/
structure LrsCtx where
  cuisineClean : String
  cuisineKey : String
  isNonFood : Bool
  aliasCuisine : Option String
  isDishTerm : Bool
  cuisineForTypeLock : String
  cuisineForReviews : String
  baseQuery : String
  strictQuery : String
  bestQuery : String
  hypeQuery : String
  allowedTypes : Option (List String)
  lockFallbackAllowed : Bool
deriving DecidableEq

def mkCtx (location : String) (cuisine : Option String) : LrsCtx :=
  let cuisineClean := pyStrip (cuisine.getD "")
  let cuisineKey := pyStrip (strLower cuisineClean)
  let isNonFood := NON_FOOD_CATEGORIES.contains cuisineKey
  let aliasCuisine := if cuisineKey = "" then none else DISH_ALIASES.lookup cuisineKey
  let isDishTerm :=
    match aliasCuisine with
    | some a => a != "" && a != cuisineKey
    | none => false
  let cuisineForTypeLock :=
    match aliasCuisine with
    | some a => if a = "" then cuisineKey else a
    | none => cuisineKey
  let cuisineForReviews :=
    if (DISH_KEYWORDS.lookup cuisineKey).isSome then cuisineKey
    else
      match aliasCuisine with
      | some a => if a = "" then cuisineKey else a
      | none => cuisineKey
  let baseQuery :=
    if isNonFood || isDishTerm then pyStrip (cuisineClean ++ " in " ++ location)
    else pyStrip ((if cuisineClean != "" then cuisineClean ++ " " else "") ++ "restaurants in " ++ location)
  { cuisineClean := cuisineClean,
    cuisineKey := cuisineKey,
    isNonFood := isNonFood,
    aliasCuisine := aliasCuisine,
    isDishTerm := isDishTerm,
    cuisineForTypeLock := cuisineForTypeLock,
    cuisineForReviews := cuisineForReviews,
    baseQuery := baseQuery,
    strictQuery := pyStrip ("best " ++ baseQuery),
    bestQuery := baseQuery,
    hypeQuery := pyStrip ("Popular " ++ baseQuery),
    allowedTypes := cuisineLockTypes cuisineForTypeLock,
    lockFallbackAllowed := !(isNonFood || isDishTerm) }

def unresolvedNote : String :=
  "I couldn’t confidently interpret that location. Try adding a nearby city/state (example: \x27Downtown San Jose, CA\x27)."

def strictWideNote : String :=
  "This area is limited for that search, so I widened the search up to 10 miles."

def bestWideNote : String :=
  "This area is limited for that search, so I widened the search up to 15 miles."

/-- The strict baseline run (computed for every mode, also used for overlap
keys): strict query at the strict primary radius, thresholds 4.3 / 150,
local-trust scoring, want at least 3. -/
def strictBaseline (env : Env) (ctx : LrsCtx) (center : Center) : List Pick × Bool :=
  buildWithTypeFallback env (env.textSearch ctx.strictQuery (some center) (some STRICT_PRIMARY))
    (mkRat 43 10) 150 (scoreLrs env) ctx.allowedTypes 3 (some center) (some STRICT_PRIMARY)
    ctx.lockFallbackAllowed

/-- The strict wide attempt at the 10-mile locked maximum. -/
def strictWideAttempt (env : Env) (ctx : LrsCtx) (center : Center) : List Pick × Bool :=
  buildWithTypeFallback env (env.textSearch ctx.strictQuery (some center) (some STRICT_MAX))
    (mkRat 43 10) 150 (scoreLrs env) ctx.allowedTypes 3 (some center) (some STRICT_MAX)
    ctx.lockFallbackAllowed

/-- Best-mode minimum rating (relaxed for dish terms and "pho"). -/
def bestMinRating (ctx : LrsCtx) : Rat :=
  if ctx.isDishTerm || ctx.cuisineKey == "pho" then mkRat 38 10 else mkRat 41 10

/-- Best-mode minimum review count (relaxed for dish terms and "pho"). -/
def bestMinReviews (ctx : LrsCtx) : Nat :=
  if ctx.isDishTerm || ctx.cuisineKey == "pho" then 1 else 30

/-- Best-mode desired minimum result count (1 for dish terms, "pho" and
non-food categories, else 3). -/
def bestWantAtLeast (ctx : LrsCtx) : Nat :=
  if ctx.isNonFood then 1
  else if ctx.isDishTerm || ctx.cuisineKey == "pho" then 1
  else 3

/-- The best-mode primary attempt at the 10-mile primary radius. -/
def bestPrimaryAttempt (env : Env) (ctx : LrsCtx) (center : Center) : List Pick × Bool :=
  buildWithTypeFallback env (env.textSearch ctx.bestQuery (some center) (some BEST_PRIMARY))
    (bestMinRating ctx) (bestMinReviews ctx) (scoreLrs env) ctx.allowedTypes (bestWantAtLeast ctx)
    (some center) (some BEST_PRIMARY) ctx.lockFallbackAllowed

/-- The best-mode wide attempt at the 15-mile locked maximum. -/
def bestWideAttempt (env : Env) (ctx : LrsCtx) (center : Center) : List Pick × Bool :=
  buildWithTypeFallback env (env.textSearch ctx.bestQuery (some center) (some BEST_MAX))
    (bestMinRating ctx) (bestMinReviews ctx) (scoreLrs env) ctx.allowedTypes (bestWantAtLeast ctx)
    (some center) (some BEST_MAX) ctx.lockFallbackAllowed

/-- The hype-mode primary attempt: thresholds 4.0 / 80, hype scoring. -/
def hypePrimaryAttempt (env : Env) (ctx : LrsCtx) (center : Center) : List Pick × Bool :=
  buildWithTypeFallback env (env.textSearch ctx.hypeQuery (some center) (some HYPE_PRIMARY))
    (mkRat 4 1) 80 (scoreHype env) ctx.allowedTypes 3 (some center) (some HYPE_PRIMARY)
    ctx.lockFallbackAllowed

/-- The hype-mode wide attempt at 25 miles with relaxed thresholds 3.8 / 20. -/
def hypeWideAttempt (env : Env) (ctx : LrsCtx) (center : Center) : List Pick × Bool :=
  buildWithTypeFallback env (env.textSearch ctx.hypeQuery (some center) (some HYPE_MAX))
    (mkRat 38 10) 20 (scoreHype env) ctx.allowedTypes 3 (some center) (some HYPE_MAX)
    ctx.lockFallbackAllowed

/-- The strict-mode response tail: truncate to 5, fill `order` from reviews,
fill `why`, pop internal fields. -/
def strictFinish (env : Env) (ctx : LrsCtx) (picks : List Pick) : List OutPick :=
  (addOrderFromReviews env (picks.take 5) ctx.cuisineForReviews).map
    (fun p => popInternal { p with why := whyLine env "strict" p.name p.rating p.reviews })

/-- The best-mode response tail: demote strict overlaps, enrich, pop. -/
def bestFinish (env : Env) (ctx : LrsCtx) (strictKeys : List String) (picks : List Pick) :
    List OutPick :=
  (addOrderFromReviews env (preferNewFirst picks strictKeys) ctx.cuisineForReviews).map
    (fun p => popInternal { p with why := whyLine env "best" p.name p.rating p.reviews })

/-- The hype-mode response tail: demote strict overlaps, enrich, pop. -/
def hypeFinish (env : Env) (ctx : LrsCtx) (strictKeys : List String) (picks : List Pick) :
    List OutPick :=
  (addOrderFromReviews env (preferNewFirst picks strictKeys) ctx.cuisineForReviews).map
    (fun p => popInternal { p with why := whyLine env "hype" p.name p.rating p.reviews })

/-- Model of the `/lrs` endpoint as a pure function of the provider
environment.  Besides the response body it reports the candidate text-search
calls it issued and the category-lock fallback flags it computed. -/
def lrs (env : Env) (location : String) (cuisine : Option String) (modeArg : String) : LrsOut :=
  if env.googleKey = "" then
    { response := LrsResponse.err "Missing GOOGLE_PLACES_API_KEY",
      searchCalls := [], fallbackFlags := [] }
  else
    let mode := pyStrip (strLower (if modeArg = "" then "strict" else modeArg))
    let ctx := mkCtx location cuisine
    match env.resolveCenter location with
    | none =>
      { response := LrsResponse.ok ctx.baseQuery mode (modeLabel mode) [] (some unresolvedNote),
        searchCalls := [], fallbackFlags := [] }
    | some center =>
      let baseCall : SearchCall := (ctx.strictQuery, some center, some STRICT_PRIMARY)
      let sb := strictBaseline env ctx center
      let strictPicks := sb.1.take 5
      if mode = "strict" then
        if strictPicks.length < 3 then
          let wide := strictWideAttempt env ctx center
          let calls := [baseCall, (ctx.strictQuery, some center, (some STRICT_MAX : Option Int))]
          if strictPicks.length < wide.1.length then
            { response := LrsResponse.ok ctx.strictQuery mode (modeLabel mode)
                (strictFinish env ctx (wide.1.take 5)) (some strictWideNote),
              searchCalls := calls, fallbackFlags := [sb.2, wide.2] }
          else
            { response := LrsResponse.ok ctx.strictQuery mode (modeLabel mode)
                (strictFinish env ctx strictPicks) none,
              searchCalls := calls, fallbackFlags := [sb.2, wide.2] }
        else
          { response := LrsResponse.ok ctx.strictQuery mode (modeLabel mode)
              (strictFinish env ctx strictPicks) none,
            searchCalls := [baseCall], fallbackFlags := [sb.2] }
      else if mode = "best" then
        let strictKeys := strictPicks.map (fun p => p.key)
        let bp := bestPrimaryAttempt env ctx center
        let primaryCall : SearchCall := (ctx.bestQuery, some center, some BEST_PRIMARY)
        if bp.1.length < bestWantAtLeast ctx then
          let bw := bestWideAttempt env ctx center
          let calls := [baseCall, primaryCall, (ctx.bestQuery, some center, (some BEST_MAX : Option Int))]
          if bp.1.length < bw.1.length then
            { response := LrsResponse.ok ctx.bestQuery mode (modeLabel mode)
                (bestFinish env ctx strictKeys bw.1) (some bestWideNote),
              searchCalls := calls, fallbackFlags := [sb.2, bp.2, bw.2] }
          else
            { response := LrsResponse.ok ctx.bestQuery mode (modeLabel mode)
                (bestFinish env ctx strictKeys bp.1) none,
              searchCalls := calls, fallbackFlags := [sb.2, bp.2, bw.2] }
        else
          { response := LrsResponse.ok ctx.bestQuery mode (modeLabel mode)
              (bestFinish env ctx strictKeys bp.1) none,
            searchCalls := [baseCall, primaryCall], fallbackFlags := [sb.2, bp.2] }
      else if mode = "hype" then
        let strictKeys := strictPicks.map (fun p => p.key)
        let hp := hypePrimaryAttempt env ctx center
        let primaryCall : SearchCall := (ctx.hypeQuery, some center, some HYPE_PRIMARY)
        if hp.1.length < 3 then
          let hw := hypeWideAttempt env ctx center
          let calls := [baseCall, primaryCall, (ctx.hypeQuery, some center, (some HYPE_MAX : Option Int))]
          if hp.1.length < hw.1.length then
            { response := LrsResponse.ok ctx.hypeQuery mode (modeLabel mode)
                (hypeFinish env ctx strictKeys hw.1)
                (some (hypeDistanceLine env location ctx.cuisineClean ++ " Showing hype picks up to 25 miles.")),
              searchCalls := calls, fallbackFlags := [sb.2, hp.2, hw.2] }
          else
            { response := LrsResponse.ok ctx.hypeQuery mode (modeLabel mode)
                (hypeFinish env ctx strictKeys hp.1) none,
              searchCalls := calls, fallbackFlags := [sb.2, hp.2, hw.2] }
        else
          { response := LrsResponse.ok ctx.hypeQuery mode (modeLabel mode)
              (hypeFinish env ctx strictKeys hp.1) none,
            searchCalls := [baseCall, primaryCall], fallbackFlags := [sb.2, hp.2] }
      else
        { response := LrsResponse.err "mode must be: strict, best, or hype",
          searchCalls := [baseCall], fallbackFlags := [sb.2] }

end LRS
namespace LRS

/-! ## Helper lemmas about the sorting and filtering stages -/

theorem insertDescBy_length {α β : Type} [LinearOrder β] (f : α → β) (a : α) (l : List α) :
    (insertDescBy f a l).length = l.length + 1 := by
  induction l with
  | nil => rfl
  | cons b t ih =>
    unfold insertDescBy
    split
    · rfl
    · simp [List.length_cons, ih]

theorem sortDescBy_length {α β : Type} [LinearOrder β] (f : α → β) (l : List α) :
    (sortDescBy f l).length = l.length := by
  induction l with
  | nil => rfl
  | cons a t ih =>
    unfold sortDescBy
    rw [insertDescBy_length, ih, List.length_cons]

theorem mem_insertDescBy {α β : Type} [LinearOrder β] (f : α → β) (a x : α) (l : List α) :
    x ∈ insertDescBy f a l ↔ x = a ∨ x ∈ l := by
  induction l with
  | nil => simp [insertDescBy]
  | cons b t ih =>
    unfold insertDescBy
    split
    · simp [List.mem_cons]
    · simp only [List.mem_cons, ih]
      tauto

theorem mem_sortDescBy {α β : Type} [LinearOrder β] (f : α → β) (x : α) (l : List α) :
    x ∈ sortDescBy f l ↔ x ∈ l := by
  induction l with
  | nil => simp [sortDescBy]
  | cons a t ih =>
    unfold sortDescBy
    rw [mem_insertDescBy, ih, List.mem_cons]

theorem filter_sublist_filter {α : Type} {p q : α → Bool} (l : List α)
    (h : ∀ a, p a = true → q a = true) :
    (l.filter p).Sublist (l.filter q) := by
  induction l with
  | nil => simp
  | cons a t ih =>
    by_cases hp : p a = true
    · rw [List.filter_cons_of_pos hp, List.filter_cons_of_pos (h a hp)]
      exact ih.cons₂ a
    · rw [List.filter_cons_of_neg hp]
      by_cases hq : q a = true
      · rw [List.filter_cons_of_pos hq]
        exact ih.cons a
      · rw [List.filter_cons_of_neg hq]
        exact ih

/-! ## Helper lemmas about build_picks and its callers -/

theorem buildPicks_length (env : Env) (places : List Place) (minRating : Rat) (minReviews : Nat)
    (sorter : Place → Rat) (allowed : Option (List String))
    (center : Option Center) (maxRadiusM : Option Int) :
    (buildPicks env places minRating minReviews sorter allowed center maxRadiusM).length =
      min 12 (places.filter (keepPlace env minRating minReviews allowed center maxRadiusM)).length := by
  simp [buildPicks, List.length_take, sortDescBy_length]

theorem buildPicks_sound {env : Env} {places : List Place} {minRating : Rat} {minReviews : Nat}
    {sorter : Place → Rat} {allowed : Option (List String)}
    {center : Option Center} {maxRadiusM : Option Int} {q : Pick}
    (h : q ∈ buildPicks env places minRating minReviews sorter allowed center maxRadiusM) :
    ∃ p, p ∈ places ∧ keepPlace env minRating minReviews allowed center maxRadiusM p = true ∧
      q = toPick env center p := by
  unfold buildPicks at h
  rcases List.mem_map.1 h with ⟨p, hp, rfl⟩
  have hp1 : p ∈ sortDescBy sorter
      (places.filter (keepPlace env minRating minReviews allowed center maxRadiusM)) :=
    List.mem_of_mem_take hp
  have hp2 := (mem_sortDescBy _ _ _).1 hp1
  rcases List.mem_filter.1 hp2 with ⟨hmem, hkeep⟩
  exact ⟨p, hmem, hkeep, rfl⟩

theorem toPick_name (env : Env) (center : Option Center) (p : Place) :
    (toPick env center p).name = nameOf p := rfl

theorem keepPlace_split {env : Env} {minRating : Rat} {minReviews : Nat}
    {allowed : Option (List String)} {center : Option Center} {maxRadiusM : Option Int} {p : Place}
    (h : keepPlace env minRating minReviews allowed center maxRadiusM p = true) :
    isClosedPlace p = false ∧ nameOf p ≠ "" ∧ isChain (nameOf p) = false ∧
      matchesTypeLock p allowed = true ∧
      ¬(ratingOf p < minRating) ∧ ¬(reviewsOf p < minReviews) ∧
      distanceOk env center maxRadiusM p = true := by
  unfold keepPlace at h
  simp only [Bool.and_eq_true, Bool.not_eq_true', Bool.or_eq_false_iff,
    decide_eq_false_iff_not, bne_iff_ne, ne_eq] at h
  tauto

/-- A type-lock of `none` accepts every place. -/
theorem matchesTypeLock_none (p : Place) : matchesTypeLock p none = true := rfl

theorem keepPlace_mono {env : Env} {minRating : Rat} {minReviews : Nat}
    {allowed : Option (List String)} {center : Option Center} {maxRadiusM : Option Int} {p : Place}
    (h : keepPlace env minRating minReviews allowed center maxRadiusM p = true) :
    keepPlace env minRating minReviews none center maxRadiusM p = true := by
  unfold keepPlace at h ⊢
  simp only [Bool.and_eq_true] at h ⊢
  exact ⟨⟨⟨⟨⟨h.1.1.1.1.1, h.1.1.1.1.2⟩, h.1.1.1.2⟩, matchesTypeLock_none p⟩, h.1.2⟩, h.2⟩

/-- The pick list produced by `build_with_type_fallback` is always one of the
two `build_picks` runs over the same candidate list. -/
theorem bwtf_sound {env : Env} {places : List Place} {minRating : Rat} {minReviews : Nat}
    {sorter : Place → Rat} {allowed : Option (List String)} {wantAtLeast : Nat}
    {center : Option Center} {maxRadiusM : Option Int} {allow : Bool} {q : Pick}
    (h : q ∈ (buildWithTypeFallback env places minRating minReviews sorter allowed wantAtLeast
      center maxRadiusM allow).1) :
    ∃ p, p ∈ places ∧ isClosedPlace p = false ∧ isChain (nameOf p) = false ∧
      q.name = nameOf p := by
  simp only [buildWithTypeFallback] at h
  split at h
  · rcases buildPicks_sound h with ⟨p, hmem, hkeep, rfl⟩
    rcases keepPlace_split hkeep with ⟨h1, _, h3, _⟩
    exact ⟨p, hmem, h1, h3, toPick_name _ _ _⟩
  · split at h
    · rcases buildPicks_sound h with ⟨p, hmem, hkeep, rfl⟩
      rcases keepPlace_split hkeep with ⟨h1, _, h3, _⟩
      exact ⟨p, hmem, h1, h3, toPick_name _ _ _⟩
    · rcases buildPicks_sound h with ⟨p, hmem, hkeep, rfl⟩
      rcases keepPlace_split hkeep with ⟨h1, _, h3, _⟩
      exact ⟨p, hmem, h1, h3, toPick_name _ _ _⟩

/-- Fallback disabled: the type-locked result is kept, flag false. -/
theorem bwtf_allow_false (env : Env) (places : List Place) (minRating : Rat) (minReviews : Nat)
    (sorter : Place → Rat) (allowed : Option (List String)) (wantAtLeast : Nat)
    (center : Option Center) (maxRadiusM : Option Int) :
    buildWithTypeFallback env places minRating minReviews sorter allowed wantAtLeast
      center maxRadiusM false =
      (buildPicks env places minRating minReviews sorter allowed center maxRadiusM, false) := rfl

theorem preferNewFirst_sound {q : Pick} {picks : List Pick} {keys : List String}
    (h : q ∈ preferNewFirst picks keys) : ∃ q0 ∈ picks, q.name = q0.name := by
  unfold preferNewFirst at h
  have h' := List.mem_of_mem_take h
  rcases List.mem_append.1 h' with h1 | h2
  · exact ⟨q, (List.mem_filter.1 h1).1, rfl⟩
  · rcases List.mem_map.1 h2 with ⟨q0, hq0, rfl⟩
    exact ⟨q0, (List.mem_filter.1 hq0).1, rfl⟩

theorem addOrderFromReviews_sound {env : Env} {q : Pick} {picks : List Pick} {cuisine : String}
    (h : q ∈ addOrderFromReviews env picks cuisine) : ∃ q0 ∈ picks, q.name = q0.name := by
  unfold addOrderFromReviews at h
  rcases List.mem_map.1 h with ⟨q0, hq0, rfl⟩
  exact ⟨q0, hq0, rfl⟩

theorem strictFinish_sound {env : Env} {ctx : LrsCtx} {o : OutPick} {picks : List Pick}
    (h : o ∈ strictFinish env ctx picks) : ∃ q ∈ picks, o.name = q.name := by
  unfold strictFinish at h
  rcases List.mem_map.1 h with ⟨q1, hq1, rfl⟩
  rcases addOrderFromReviews_sound hq1 with ⟨q2, hq2, he⟩
  exact ⟨q2, List.mem_of_mem_take hq2, he⟩

theorem bestFinish_sound {env : Env} {ctx : LrsCtx} {keys : List String} {o : OutPick}
    {picks : List Pick} (h : o ∈ bestFinish env ctx keys picks) : ∃ q ∈ picks, o.name = q.name := by
  unfold bestFinish at h
  rcases List.mem_map.1 h with ⟨q1, hq1, rfl⟩
  rcases addOrderFromReviews_sound hq1 with ⟨q2, hq2, he⟩
  rcases preferNewFirst_sound hq2 with ⟨q3, hq3, he2⟩
  exact ⟨q3, hq3, he.trans he2⟩

theorem hypeFinish_sound {env : Env} {ctx : LrsCtx} {keys : List String} {o : OutPick}
    {picks : List Pick} (h : o ∈ hypeFinish env ctx keys picks) : ∃ q ∈ picks, o.name = q.name := by
  unfold hypeFinish at h
  rcases List.mem_map.1 h with ⟨q1, hq1, rfl⟩
  rcases addOrderFromReviews_sound hq1 with ⟨q2, hq2, he⟩
  rcases preferNewFirst_sound hq2 with ⟨q3, hq3, he2⟩
  exact ⟨q3, hq3, he.trans he2⟩

set_option maxHeartbeats 1000000 in
/-- Every pick the endpoint returns is the survivor of a filter pass over
the result of one of the candidate searches recorded in the trace: it is
backed by a returned place that is not closed, not a chain, and whose
stripped display name the pick carries. -/
theorem lrs_sound (env : Env) (location : String) (cuisine : Option String) (modeArg : String)
    {q : OutPick} (h : q ∈ picksOfResponse (lrs env location cuisine modeArg).response) :
    ∃ p, p ∈ (lrs env location cuisine modeArg).searchCalls.flatMap
        (fun c => env.textSearch c.1 c.2.1 c.2.2) ∧
      isClosedPlace p = false ∧ isChain (nameOf p) = false ∧ q.name = nameOf p := by
  revert h
  unfold lrs
  by_cases hk : env.googleKey = ""
  · simp [hk, picksOfResponse]
  · simp only [if_neg hk]
    generalize pyStrip (strLower (if modeArg = "" then "strict" else modeArg)) = m
    split
    · intro h
      exact absurd h (List.not_mem_nil q)
    · rename_i center heq
      by_cases hm1 : m = "strict"
      · rw [if_pos hm1]
        by_cases h2 :
            (List.take 5 (strictBaseline env (mkCtx location cuisine) center).1).length < 3
        · rw [if_pos h2]
          by_cases h3 :
              (List.take 5 (strictBaseline env (mkCtx location cuisine) center).1).length <
                (strictWideAttempt env (mkCtx location cuisine) center).1.length
          · rw [if_pos h3]
            intro h
            simp only [picksOfResponse] at h
            rcases strictFinish_sound h with ⟨q1, hq1, he⟩
            rcases bwtf_sound (List.mem_of_mem_take hq1) with ⟨p, hp, hc1, hc2, hc3⟩
            exact ⟨p, List.mem_flatMap.2
              ⟨((mkCtx location cuisine).strictQuery, some center, some STRICT_MAX),
                List.mem_cons_of_mem _ (List.mem_cons_self _ _), hp⟩,
              hc1, hc2, he.trans hc3⟩
          · rw [if_neg h3]
            intro h
            simp only [picksOfResponse] at h
            rcases strictFinish_sound h with ⟨q1, hq1, he⟩
            rcases bwtf_sound (List.mem_of_mem_take hq1) with ⟨p, hp, hc1, hc2, hc3⟩
            exact ⟨p, List.mem_flatMap.2
              ⟨((mkCtx location cuisine).strictQuery, some center, some STRICT_PRIMARY),
                List.mem_cons_self _ _, hp⟩,
              hc1, hc2, he.trans hc3⟩
        · rw [if_neg h2]
          intro h
          simp only [picksOfResponse] at h
          rcases strictFinish_sound h with ⟨q1, hq1, he⟩
          rcases bwtf_sound (List.mem_of_mem_take hq1) with ⟨p, hp, hc1, hc2, hc3⟩
          exact ⟨p, List.mem_flatMap.2
            ⟨((mkCtx location cuisine).strictQuery, some center, some STRICT_PRIMARY),
              List.mem_cons_self _ _, hp⟩,
            hc1, hc2, he.trans hc3⟩
      · rw [if_neg hm1]
        by_cases hm2 : m = "best"
        · rw [if_pos hm2]
          by_cases h2 :
              (bestPrimaryAttempt env (mkCtx location cuisine) center).1.length <
                bestWantAtLeast (mkCtx location cuisine)
          · rw [if_pos h2]
            by_cases h3 :
                (bestPrimaryAttempt env (mkCtx location cuisine) center).1.length <
                  (bestWideAttempt env (mkCtx location cuisine) center).1.length
            · rw [if_pos h3]
              intro h
              simp only [picksOfResponse] at h
              rcases bestFinish_sound h with ⟨q1, hq1, he⟩
              rcases bwtf_sound hq1 with ⟨p, hp, hc1, hc2, hc3⟩
              exact ⟨p, List.mem_flatMap.2
                ⟨((mkCtx location cuisine).bestQuery, some center, some BEST_MAX),
                  List.mem_cons_of_mem _ (List.mem_cons_of_mem _ (List.mem_cons_self _ _)),
                  hp⟩,
                hc1, hc2, he.trans hc3⟩
            · rw [if_neg h3]
              intro h
              simp only [picksOfResponse] at h
              rcases bestFinish_sound h with ⟨q1, hq1, he⟩
              rcases bwtf_sound hq1 with ⟨p, hp, hc1, hc2, hc3⟩
              exact ⟨p, List.mem_flatMap.2
                ⟨((mkCtx location cuisine).bestQuery, some center, some BEST_PRIMARY),
                  List.mem_cons_of_mem _ (List.mem_cons_self _ _), hp⟩,
                hc1, hc2, he.trans hc3⟩
          · rw [if_neg h2]
            intro h
            simp only [picksOfResponse] at h
            rcases bestFinish_sound h with ⟨q1, hq1, he⟩
            rcases bwtf_sound hq1 with ⟨p, hp, hc1, hc2, hc3⟩
            exact ⟨p, List.mem_flatMap.2
              ⟨((mkCtx location cuisine).bestQuery, some center, some BEST_PRIMARY),
                List.mem_cons_of_mem _ (List.mem_cons_self _ _), hp⟩,
              hc1, hc2, he.trans hc3⟩
        · rw [if_neg hm2]
          by_cases hm3 : m = "hype"
          · rw [if_pos hm3]
            by_cases h2 :
                (hypePrimaryAttempt env (mkCtx location cuisine) center).1.length < 3
            · rw [if_pos h2]
              by_cases h3 :
                  (hypePrimaryAttempt env (mkCtx location cuisine) center).1.length <
                    (hypeWideAttempt env (mkCtx location cuisine) center).1.length
              · rw [if_pos h3]
                intro h
                simp only [picksOfResponse] at h
                rcases hypeFinish_sound h with ⟨q1, hq1, he⟩
                rcases bwtf_sound hq1 with ⟨p, hp, hc1, hc2, hc3⟩
                exact ⟨p, List.mem_flatMap.2
                  ⟨((mkCtx location cuisine).hypeQuery, some center, some HYPE_MAX),
                    List.mem_cons_of_mem _ (List.mem_cons_of_mem _ (List.mem_cons_self _ _)),
                    hp⟩,
                  hc1, hc2, he.trans hc3⟩
              · rw [if_neg h3]
                intro h
                simp only [picksOfResponse] at h
                rcases hypeFinish_sound h with ⟨q1, hq1, he⟩
                rcases bwtf_sound hq1 with ⟨p, hp, hc1, hc2, hc3⟩
                exact ⟨p, List.mem_flatMap.2
                  ⟨((mkCtx location cuisine).hypeQuery, some center, some HYPE_PRIMARY),
                    List.mem_cons_of_mem _ (List.mem_cons_self _ _), hp⟩,
                  hc1, hc2, he.trans hc3⟩
            · rw [if_neg h2]
              intro h
              simp only [picksOfResponse] at h
              rcases hypeFinish_sound h with ⟨q1, hq1, he⟩
              rcases bwtf_sound hq1 with ⟨p, hp, hc1, hc2, hc3⟩
              exact ⟨p, List.mem_flatMap.2
                ⟨((mkCtx location cuisine).hypeQuery, some center, some HYPE_PRIMARY),
                  List.mem_cons_of_mem _ (List.mem_cons_self _ _), hp⟩,
                hc1, hc2, he.trans hc3⟩
          · rw [if_neg hm3]
            intro h
            exact absurd h (List.not_mem_nil q)

end LRS
namespace LRS

/-! ## Further helper lemmas and witness environments -/

/-- Rank of a confidence label, for stating monotonicity. -/
def confTier (label : String) : Nat :=
  if label = "High" then 2 else if label = "Med" then 1 else 0

theorem isChain_false_no_hint {name hint : String} (hh : hint ∈ CHAIN_HINTS)
    (h : isChain name = false) : containsSub (strLower name) hint = false := by
  cases hcs : containsSub (strLower name) hint
  · rfl
  · exfalso
    have ht : isChain name = true := by
      unfold isChain
      exact List.any_eq_true.2 ⟨hint, hh, hcs⟩
    rw [h] at ht
    exact Bool.false_ne_true ht

theorem stage_flags_false {ctx : LrsCtx} (env : Env)
    (hl : ctx.lockFallbackAllowed = false) (center : Center) :
    (strictBaseline env ctx center).2 = false ∧
    (strictWideAttempt env ctx center).2 = false ∧
    (bestPrimaryAttempt env ctx center).2 = false ∧
    (bestWideAttempt env ctx center).2 = false ∧
    (hypePrimaryAttempt env ctx center).2 = false ∧
    (hypeWideAttempt env ctx center).2 = false := by
  unfold strictBaseline strictWideAttempt bestPrimaryAttempt bestWideAttempt
    hypePrimaryAttempt hypeWideAttempt buildWithTypeFallback
  rw [hl]
  simp

/-- A center used by the concrete probe environments below. -/
def probeCenter : Center := { latitude := 0, longitude := 0 }

/-- A minimal concrete environment: the credential is set, every location
resolves to `probeCenter`, every candidate search returns nothing. -/
def probeEnv : Env :=
  { googleKey := "k",
    resolveCenter := fun _ => some probeCenter,
    textSearch := fun _ _ _ => [],
    fetchReviews := fun _ => [],
    log10 := fun _ => 0,
    haversineM := fun _ _ _ _ => 0,
    stableIdx := fun _ _ => 0,
    urlQuote := fun s => s,
    round1 := fun q => q }

/-- Like `probeEnv` but no location ever resolves. -/
def noCenterEnv : Env := { probeEnv with resolveCenter := fun _ => none }

/-! ## The claims -/

/-- C1, counterexample: on the review texts
`["I always get the birria tacos, so good"]` with cuisine `"tacos"`,
`most_mentioned_dish` does not return `"birria"`: both `"tacos"` and
`"birria"` occur exactly once, and `"tacos"` precedes `"birria"` in the
`DISH_KEYWORDS["tacos"]` table, so the stable descending sort keeps it in
front and it wins the tie. -/
theorem c1_counterexample :
    mostMentionedDish ["I always get the birria tacos, so good"] (some "tacos") ≠
      some "birria" := by decide

/-- C1, amended: on those review texts with cuisine `"tacos"` the extractor
returns `"tacos"`; both candidate keywords occur exactly once in the
normalized text, and the tie is broken by the keyword table's declaration
order, the first listed keyword with the maximal count winning. -/
theorem c1_amended_dish_extractor :
    mostMentionedDish ["I always get the birria tacos, so good"] (some "tacos") = some "tacos" ∧
    countSubstr (normalizeText "I always get the birria tacos, so good") "tacos" = 1 ∧
    countSubstr (normalizeText "I always get the birria tacos, so good") "birria" = 1 := by
  refine ⟨by decide, by decide, by decide⟩

/-- C2: when the provider credential is present but the location text fails
to resolve to a geographic center, the response has an empty pick list and a
non-null limitation note (the fixed unresolved-location text), and no
candidate text-search call is issued. -/
theorem c2_unresolved_location (env : Env) (location : String) (cuisine : Option String)
    (modeArg : String) (hk : env.googleKey ≠ "") (hc : env.resolveCenter location = none) :
    picksOfResponse (lrs env location cuisine modeArg).response = [] ∧
    limitationOf (lrs env location cuisine modeArg).response = some unresolvedNote ∧
    (lrs env location cuisine modeArg).searchCalls = [] := by
  unfold lrs
  rw [if_neg hk, hc]
  exact ⟨rfl, rfl, rfl⟩

theorem c2_unresolved_location_witness :
    noCenterEnv.googleKey ≠ "" ∧ noCenterEnv.resolveCenter "Nowhere" = none ∧
    (picksOfResponse (lrs noCenterEnv "Nowhere" none "strict").response = [] ∧
      limitationOf (lrs noCenterEnv "Nowhere" none "strict").response = some unresolvedNote ∧
      (lrs noCenterEnv "Nowhere" none "strict").searchCalls = []) :=
  ⟨by decide, rfl, c2_unresolved_location noCenterEnv "Nowhere" none "strict" (by decide) rfl⟩

/-- C3: for a request whose cuisine the alias table maps to a different
cuisine (a dish term), category-lock fallback is disabled
(`lock_fallback_allowed` is false) and never triggers in any mode: every
fallback flag the endpoint computes is false, so the type-locked result is
kept even when no candidate matches the lock. -/
theorem c3_dish_alias_no_lock_fallback (env : Env) (location : String) (cuisine : Option String)
    (modeArg : String) (hd : (mkCtx location cuisine).isDishTerm = true) :
    (mkCtx location cuisine).lockFallbackAllowed = false ∧
    (lrs env location cuisine modeArg).fallbackFlags.all (fun b => !b) = true := by
  have hl : (mkCtx location cuisine).lockFallbackAllowed = false := by
    simp only [mkCtx] at hd ⊢
    rw [hd]
    simp
  refine ⟨hl, ?_⟩
  unfold lrs
  by_cases hk : env.googleKey = ""
  · simp [hk]
  · simp only [if_neg hk]
    generalize pyStrip (strLower (if modeArg = "" then "strict" else modeArg)) = m
    split
    · rfl
    · rename_i center heq
      by_cases hm1 : m = "strict"
      · rw [if_pos hm1]
        by_cases h2 :
            (List.take 5 (strictBaseline env (mkCtx location cuisine) center).1).length < 3
        · rw [if_pos h2]
          by_cases h3 :
              (List.take 5 (strictBaseline env (mkCtx location cuisine) center).1).length <
                (strictWideAttempt env (mkCtx location cuisine) center).1.length
          · rw [if_pos h3]
            simp [(stage_flags_false env hl center).1, (stage_flags_false env hl center).2.1]
          · rw [if_neg h3]
            simp [(stage_flags_false env hl center).1, (stage_flags_false env hl center).2.1]
        · rw [if_neg h2]
          simp [(stage_flags_false env hl center).1]
      · rw [if_neg hm1]
        by_cases hm2 : m = "best"
        · rw [if_pos hm2]
          by_cases h2 :
              (bestPrimaryAttempt env (mkCtx location cuisine) center).1.length <
                bestWantAtLeast (mkCtx location cuisine)
          · rw [if_pos h2]
            by_cases h3 :
                (bestPrimaryAttempt env (mkCtx location cuisine) center).1.length <
                  (bestWideAttempt env (mkCtx location cuisine) center).1.length
            · rw [if_pos h3]
              simp [(stage_flags_false env hl center).1, (stage_flags_false env hl center).2.2.1,
                (stage_flags_false env hl center).2.2.2.1]
            · rw [if_neg h3]
              simp [(stage_flags_false env hl center).1, (stage_flags_false env hl center).2.2.1,
                (stage_flags_false env hl center).2.2.2.1]
          · rw [if_neg h2]
            simp [(stage_flags_false env hl center).1, (stage_flags_false env hl center).2.2.1]
        · rw [if_neg hm2]
          by_cases hm3 : m = "hype"
          · rw [if_pos hm3]
            by_cases h2 :
                (hypePrimaryAttempt env (mkCtx location cuisine) center).1.length < 3
            · rw [if_pos h2]
              by_cases h3 :
                  (hypePrimaryAttempt env (mkCtx location cuisine) center).1.length <
                    (hypeWideAttempt env (mkCtx location cuisine) center).1.length
              · rw [if_pos h3]
                simp [(stage_flags_false env hl center).1,
                  (stage_flags_false env hl center).2.2.2.2.1,
                  (stage_flags_false env hl center).2.2.2.2.2]
              · rw [if_neg h3]
                simp [(stage_flags_false env hl center).1,
                  (stage_flags_false env hl center).2.2.2.2.1,
                  (stage_flags_false env hl center).2.2.2.2.2]
            · rw [if_neg h2]
              simp [(stage_flags_false env hl center).1,
                (stage_flags_false env hl center).2.2.2.2.1]
          · rw [if_neg hm3]
            simp [(stage_flags_false env hl center).1]

theorem c3_dish_alias_no_lock_fallback_witness :
    (mkCtx "Town" (some "pho")).isDishTerm = true ∧
    ((mkCtx "Town" (some "pho")).lockFallbackAllowed = false ∧
      (lrs probeEnv "Town" (some "pho") "best").fallbackFlags.all (fun b => !b) = true) :=
  ⟨by decide, c3_dish_alias_no_lock_fallback probeEnv "Town" (some "pho") "best" (by decide)⟩

/-- C4: the category-lock fallback policy of `build_with_type_fallback`:
when fallback is permitted, a (truthy, i.e. non-empty) allowed-category set
is supplied, and the locked run yields fewer picks than the caller-specified
minimum, the whole pipeline re-runs with no category restriction and that
unlocked result replaces the locked one together with a true flag; in every
other case (set not supplied or empty, enough picks, or fallback not
permitted) the locked result is returned with the flag false. -/
theorem c4_type_fallback_policy (env : Env) (places : List Place) (minRating : Rat)
    (minReviews : Nat) (sorter : Place → Rat) (wantAtLeast : Nat)
    (center : Option Center) (maxRadiusM : Option Int) :
    (∀ l : List String, l ≠ [] →
      (buildPicks env places minRating minReviews sorter (some l) center maxRadiusM).length <
        wantAtLeast →
      buildWithTypeFallback env places minRating minReviews sorter (some l) wantAtLeast
          center maxRadiusM true =
        (buildPicks env places minRating minReviews sorter none center maxRadiusM, true)) ∧
    (∀ allowed : Option (List String),
      allowedTruthy allowed = false ∨
        wantAtLeast ≤
          (buildPicks env places minRating minReviews sorter allowed center maxRadiusM).length →
      buildWithTypeFallback env places minRating minReviews sorter allowed wantAtLeast
          center maxRadiusM true =
        (buildPicks env places minRating minReviews sorter allowed center maxRadiusM, false)) ∧
    (∀ allowed : Option (List String),
      buildWithTypeFallback env places minRating minReviews sorter allowed wantAtLeast
          center maxRadiusM false =
        (buildPicks env places minRating minReviews sorter allowed center maxRadiusM, false)) := by
  refine ⟨?_, ?_, ?_⟩
  · intro l hl hlen
    have ht : allowedTruthy (some l) = true := by
      simp [allowedTruthy, hl]
    simp [buildWithTypeFallback, ht, hlen]
  · intro allowed hcase
    rcases hcase with hf | hge
    · simp [buildWithTypeFallback, hf]
    · simp [buildWithTypeFallback, Nat.not_lt.2 hge]
  · intro allowed
    rfl

theorem c4_type_fallback_policy_witness :
    ((["x"] : List String) ≠ [] ∧
      (buildPicks probeEnv [] (mkRat 43 10) 150 (fun _ => 0) (some ["x"]) none none).length < 1 ∧
      buildWithTypeFallback probeEnv [] (mkRat 43 10) 150 (fun _ => 0) (some ["x"]) 1
          none none true =
        (buildPicks probeEnv [] (mkRat 43 10) 150 (fun _ => 0) none none none, true)) ∧
    (allowedTruthy none = false ∧
      buildWithTypeFallback probeEnv [] (mkRat 43 10) 150 (fun _ => 0) none 1 none none true =
        (buildPicks probeEnv [] (mkRat 43 10) 150 (fun _ => 0) none none none, false)) ∧
    buildWithTypeFallback probeEnv [] (mkRat 43 10) 150 (fun _ => 0) (some ["x"]) 1
        none none false =
      (buildPicks probeEnv [] (mkRat 43 10) 150 (fun _ => 0) (some ["x"]) none none, false) :=
  ⟨⟨by decide, by decide,
      (c4_type_fallback_policy probeEnv [] (mkRat 43 10) 150 (fun _ => 0) 1 none none).1
        ["x"] (by decide) (by decide)⟩,
    ⟨rfl,
      (c4_type_fallback_policy probeEnv [] (mkRat 43 10) 150 (fun _ => 0) 1 none none).2.1
        none (Or.inl rfl)⟩,
    (c4_type_fallback_policy probeEnv [] (mkRat 43 10) 150 (fun _ => 0) 1 none none).2.2
      (some ["x"])⟩

/-- C6: a candidate whose display name contains any blocklisted chain
substring case-insensitively never appears in the pick list of any mode,
regardless of rating or review count: every pick name of every response is
free of every `CHAIN_HINTS` fragment case-insensitively — and "mcdonald" is
one of those fragments, so in particular no pick name contains any spelling
of the McDonald brand (with or without the apostrophe-s). -/
theorem c6_chain_blocklist_excluded (env : Env) (location : String) (cuisine : Option String)
    (modeArg : String) :
    "mcdonald" ∈ CHAIN_HINTS ∧
    (picksOfResponse (lrs env location cuisine modeArg).response).all
      (fun q => CHAIN_HINTS.all (fun hint => !containsSub (strLower q.name) hint)) = true := by
  refine ⟨by decide, ?_⟩
  rw [List.all_eq_true]
  intro q hq
  rcases lrs_sound env location cuisine modeArg hq with ⟨p, _, _, hchain, hname⟩
  rw [List.all_eq_true]
  intro hint hh
  have hfree := isChain_false_no_hint hh hchain
  rw [hname]
  simp [hfree]

/-- C7: a candidate whose business status indicates permanent or temporary
closure, or whose open-now flag is explicitly false, never appears in any
mode's output — every returned pick is backed by a returned, non-closed
candidate bearing its name; and a candidate with absent status and open-now
information is not excluded by this step. -/
theorem c7_closed_places_excluded :
    (∀ (env : Env) (location : String) (cuisine : Option String) (modeArg : String),
      (picksOfResponse (lrs env location cuisine modeArg).response).all (fun q =>
        ((lrs env location cuisine modeArg).searchCalls.flatMap
            (fun c => env.textSearch c.1 c.2.1 c.2.2)).any
          (fun p => !isClosedPlace p && (q.name == nameOf p))) = true) ∧
    (∀ (idv dn fa gm pt : Option String) (rt : Option Rat) (rc : Option Nat)
        (tys : List String) (locn : Option Center) (ph : List String),
      isClosedPlace (Place.mk idv dn fa rt rc gm pt tys locn none none ph) = false) := by
  constructor
  · intro env location cuisine modeArg
    rw [List.all_eq_true]
    intro q hq
    rcases lrs_sound env location cuisine modeArg hq with ⟨p, hp, hclosed, _, hname⟩
    rw [List.any_eq_true]
    refine ⟨p, hp, ?_⟩
    simp [hclosed, hname]
  · intro idv dn fa gm pt rt rc tys locn ph
    rfl

/-- C8: the confidence label is always exactly one of High/Med/Low, follows
the documented thresholds (High iff rating ≥ 4.5 and reviews ≥ 300, else Med
iff rating ≥ 4.3 and reviews ≥ 100, else Low), and its tier is monotonically
non-decreasing in rating and in review count, the other argument held
fixed. -/
theorem c8_confidence_label :
    (∀ (rating : Rat) (reviews : Nat),
      confidenceLabel rating reviews = "High" ∨ confidenceLabel rating reviews = "Med" ∨
        confidenceLabel rating reviews = "Low") ∧
    (∀ (rating : Rat) (reviews : Nat),
      (mkRat 45 10 ≤ rating ∧ 300 ≤ reviews → confidenceLabel rating reviews = "High") ∧
      (¬(mkRat 45 10 ≤ rating ∧ 300 ≤ reviews) → mkRat 43 10 ≤ rating ∧ 100 ≤ reviews →
        confidenceLabel rating reviews = "Med") ∧
      (¬(mkRat 45 10 ≤ rating ∧ 300 ≤ reviews) → ¬(mkRat 43 10 ≤ rating ∧ 100 ≤ reviews) →
        confidenceLabel rating reviews = "Low")) ∧
    (∀ (r1 r2 : Rat) (reviews : Nat), r1 ≤ r2 →
      confTier (confidenceLabel r1 reviews) ≤ confTier (confidenceLabel r2 reviews)) ∧
    (∀ (rating : Rat) (n1 n2 : Nat), n1 ≤ n2 →
      confTier (confidenceLabel rating n1) ≤ confTier (confidenceLabel rating n2)) := by
  refine ⟨?_, ?_, ?_, ?_⟩
  · intro rating reviews
    unfold confidenceLabel
    split_ifs <;> simp
  · intro rating reviews
    refine ⟨?_, ?_, ?_⟩
    · intro hH
      unfold confidenceLabel
      rw [if_pos hH]
    · intro hnH hM
      unfold confidenceLabel
      rw [if_neg hnH, if_pos hM]
    · intro hnH hnM
      unfold confidenceLabel
      rw [if_neg hnH, if_neg hnM]
  · intro r1 r2 n h12
    unfold confidenceLabel
    by_cases hH1 : mkRat 45 10 ≤ r1 ∧ 300 ≤ n
    · have hH2 : mkRat 45 10 ≤ r2 ∧ 300 ≤ n := ⟨le_trans hH1.1 h12, hH1.2⟩
      rw [if_pos hH1, if_pos hH2]
    · rw [if_neg hH1]
      by_cases hM1 : mkRat 43 10 ≤ r1 ∧ 100 ≤ n
      · have hM2 : mkRat 43 10 ≤ r2 ∧ 100 ≤ n := ⟨le_trans hM1.1 h12, hM1.2⟩
        rw [if_pos hM1]
        by_cases hH2 : mkRat 45 10 ≤ r2 ∧ 300 ≤ n
        · rw [if_pos hH2]
          simp [confTier]
        · rw [if_neg hH2, if_pos hM2]
      · rw [if_neg hM1]
        have hz : confTier "Low" = 0 := rfl
        rw [hz]
        exact Nat.zero_le _
  · intro rating n1 n2 h12
    unfold confidenceLabel
    by_cases hH1 : mkRat 45 10 ≤ rating ∧ 300 ≤ n1
    · have hH2 : mkRat 45 10 ≤ rating ∧ 300 ≤ n2 := ⟨hH1.1, le_trans hH1.2 h12⟩
      rw [if_pos hH1, if_pos hH2]
    · rw [if_neg hH1]
      by_cases hM1 : mkRat 43 10 ≤ rating ∧ 100 ≤ n1
      · have hM2 : mkRat 43 10 ≤ rating ∧ 100 ≤ n2 := ⟨hM1.1, le_trans hM1.2 h12⟩
        rw [if_pos hM1]
        by_cases hH2 : mkRat 45 10 ≤ rating ∧ 300 ≤ n2
        · rw [if_pos hH2]
          simp [confTier]
        · rw [if_neg hH2, if_pos hM2]
      · rw [if_neg hM1]
        have hz : confTier "Low" = 0 := rfl
        rw [hz]
        exact Nat.zero_le _

theorem c8_confidence_label_witness :
    ((mkRat 45 10 ≤ mkRat 46 10 ∧ (300 : Nat) ≤ 500) ∧
      confidenceLabel (mkRat 46 10) 500 = "High") ∧
    (mkRat 41 10 ≤ mkRat 46 10 ∧
      confTier (confidenceLabel (mkRat 41 10) 500) ≤ confTier (confidenceLabel (mkRat 46 10) 500)) ∧
    ((100 : Nat) ≤ 400 ∧
      confTier (confidenceLabel (mkRat 44 10) 100) ≤ confTier (confidenceLabel (mkRat 44 10) 400)) :=
  ⟨⟨⟨by decide, by decide⟩,
      (c8_confidence_label.2.1 (mkRat 46 10) 500).1 ⟨by decide, by decide⟩⟩,
    ⟨by decide, c8_confidence_label.2.2.1 (mkRat 41 10) (mkRat 46 10) 500 (by decide)⟩,
    ⟨by decide, c8_confidence_label.2.2.2 (mkRat 44 10) 100 400 (by decide)⟩⟩

/-- C9: lifting the category lock never shrinks the result: for every
candidate list, thresholds, scoring function and optional center/radius
pair, `build_picks` with no allowed set returns at least as many picks as
with any non-null allowed set, both lists are capped at 12, and every locked
filter survivor also survives unlocked (the locked filter output is a
sublist of the unlocked one). -/
theorem c9_lock_never_shrinks (env : Env) (places : List Place) (minRating : Rat)
    (minReviews : Nat) (sorter : Place → Rat) (l : List String)
    (center : Option Center) (maxRadiusM : Option Int) :
    (buildPicks env places minRating minReviews sorter (some l) center maxRadiusM).length ≤
      (buildPicks env places minRating minReviews sorter none center maxRadiusM).length ∧
    (buildPicks env places minRating minReviews sorter none center maxRadiusM).length ≤ 12 ∧
    (buildPicks env places minRating minReviews sorter (some l) center maxRadiusM).length ≤ 12 ∧
    (places.filter (keepPlace env minRating minReviews (some l) center maxRadiusM)).Sublist
      (places.filter (keepPlace env minRating minReviews none center maxRadiusM)) := by
  have hs : (places.filter (keepPlace env minRating minReviews (some l) center maxRadiusM)).Sublist
      (places.filter (keepPlace env minRating minReviews none center maxRadiusM)) :=
    filter_sublist_filter places (fun a ha => keepPlace_mono ha)
  refine ⟨?_, ?_, ?_, hs⟩
  · rw [buildPicks_length, buildPicks_length]
    exact min_le_min (le_refl 12) hs.length_le
  · rw [buildPicks_length]
    exact min_le_left _ _
  · rw [buildPicks_length]
    exact min_le_left _ _

/-- C10: the mode parameter is normalized by lowercasing and stripping
before dispatch (two non-empty mode strings with the same normal form give
identical results, so "STRICT" and " Best " behave as their lowercase
forms); an explicitly empty mode string behaves as "strict"; and a
non-empty mode whose normal form is not one of strict/best/hype — in
particular a whitespace-only mode — yields the invalid-mode error payload
once the request reaches mode dispatch (credential set, location
resolved). -/
theorem c10_mode_normalization :
    (∀ (env : Env) (location : String) (cuisine : Option String) (mode1 mode2 : String),
      mode1 ≠ "" → mode2 ≠ "" → pyStrip (strLower mode1) = pyStrip (strLower mode2) →
      lrs env location cuisine mode1 = lrs env location cuisine mode2) ∧
    (∀ (env : Env) (location : String) (cuisine : Option String),
      lrs env location cuisine "" = lrs env location cuisine "strict") ∧
    (∀ (env : Env) (location : String) (cuisine : Option String) (modeArg : String)
        (center : Center),
      env.googleKey ≠ "" → env.resolveCenter location = some center → modeArg ≠ "" →
      pyStrip (strLower modeArg) ≠ "strict" → pyStrip (strLower modeArg) ≠ "best" →
      pyStrip (strLower modeArg) ≠ "hype" →
      (lrs env location cuisine modeArg).response =
        LrsResponse.err "mode must be: strict, best, or hype") := by
  refine ⟨?_, ?_, ?_⟩
  · intro env location cuisine mode1 mode2 h1 h2 h3
    unfold lrs
    rw [if_neg h1, if_neg h2, h3]
  · intro env location cuisine
    rfl
  · intro env location cuisine modeArg center hk hc h0 hs hb hh
    unfold lrs
    rw [if_neg hk, if_neg h0, hc]
    simp only [if_neg hs, if_neg hb, if_neg hh]

theorem c10_mode_normalization_witness :
    (("STRICT" : String) ≠ "" ∧ ("strict" : String) ≠ "" ∧
      pyStrip (strLower "STRICT") = pyStrip (strLower "strict") ∧
      lrs probeEnv "Town" none "STRICT" = lrs probeEnv "Town" none "strict") ∧
    lrs probeEnv "Town" none "" = lrs probeEnv "Town" none "strict" ∧
    (probeEnv.googleKey ≠ "" ∧ probeEnv.resolveCenter "Town" = some probeCenter ∧
      (" " : String) ≠ "" ∧ pyStrip (strLower " ") ≠ "strict" ∧
      pyStrip (strLower " ") ≠ "best" ∧ pyStrip (strLower " ") ≠ "hype" ∧
      (lrs probeEnv "Town" none " ").response =
        LrsResponse.err "mode must be: strict, best, or hype") :=
  ⟨⟨by decide, by decide, by decide,
      c10_mode_normalization.1 probeEnv "Town" none "STRICT" "strict"
        (by decide) (by decide) (by decide)⟩,
    c10_mode_normalization.2.1 probeEnv "Town" none,
    ⟨by decide, rfl, by decide, by decide, by decide, by decide,
      c10_mode_normalization.2.2 probeEnv "Town" none " " probeCenter
        (by decide) rfl (by decide) (by decide) (by decide) (by decide)⟩⟩

end LRS
namespace LRS

/-- The strict-mode widening policy: the wide search (at the 10-mile locked
maximum) is issued exactly when the primary attempt yields fewer than 3
picks; the widening note is surfaced exactly when the wide attempt produced
strictly more picks; and the kept attempt is the one with more results. -/
def strictWideningSpec (env : Env) (location : String) (cuisine : Option String)
    (center : Center) (out : LrsOut) : Prop :=
  let ctx := mkCtx location cuisine
  let sp := List.take 5 (strictBaseline env ctx center).1
  let wide := (strictWideAttempt env ctx center).1
  out.searchCalls =
    (if sp.length < 3 then
      [(ctx.strictQuery, some center, some STRICT_PRIMARY),
        (ctx.strictQuery, some center, some STRICT_MAX)]
    else [(ctx.strictQuery, some center, some STRICT_PRIMARY)]) ∧
  limitationOf out.response =
    (if sp.length < 3 ∧ sp.length < wide.length then some strictWideNote else none) ∧
  picksOfResponse out.response =
    strictFinish env ctx
      (if sp.length < 3 ∧ sp.length < wide.length then List.take 5 wide else sp)

/-- The best-mode widening policy, with the mode-specific minimum
`bestWantAtLeast` (3, or 1 for dish terms / "pho" / non-food categories). -/
def bestWideningSpec (env : Env) (location : String) (cuisine : Option String)
    (center : Center) (out : LrsOut) : Prop :=
  let ctx := mkCtx location cuisine
  let keys := (List.take 5 (strictBaseline env ctx center).1).map (fun p => p.key)
  let bp := (bestPrimaryAttempt env ctx center).1
  let bw := (bestWideAttempt env ctx center).1
  out.searchCalls =
    (if bp.length < bestWantAtLeast ctx then
      [(ctx.strictQuery, some center, some STRICT_PRIMARY),
        (ctx.bestQuery, some center, some BEST_PRIMARY),
        (ctx.bestQuery, some center, some BEST_MAX)]
    else
      [(ctx.strictQuery, some center, some STRICT_PRIMARY),
        (ctx.bestQuery, some center, some BEST_PRIMARY)]) ∧
  limitationOf out.response =
    (if bp.length < bestWantAtLeast ctx ∧ bp.length < bw.length then some bestWideNote
     else none) ∧
  picksOfResponse out.response =
    bestFinish env ctx keys
      (if bp.length < bestWantAtLeast ctx ∧ bp.length < bw.length then bw else bp)

/-- The hype-mode widening policy: the wide attempt runs at 25 miles with
relaxed thresholds, and a widening win surfaces the rotating
"popularity is not always local" line plus the 25-mile notice. -/
def hypeWideningSpec (env : Env) (location : String) (cuisine : Option String)
    (center : Center) (out : LrsOut) : Prop :=
  let ctx := mkCtx location cuisine
  let keys := (List.take 5 (strictBaseline env ctx center).1).map (fun p => p.key)
  let hp := (hypePrimaryAttempt env ctx center).1
  let hw := (hypeWideAttempt env ctx center).1
  out.searchCalls =
    (if hp.length < 3 then
      [(ctx.strictQuery, some center, some STRICT_PRIMARY),
        (ctx.hypeQuery, some center, some HYPE_PRIMARY),
        (ctx.hypeQuery, some center, some HYPE_MAX)]
    else
      [(ctx.strictQuery, some center, some STRICT_PRIMARY),
        (ctx.hypeQuery, some center, some HYPE_PRIMARY)]) ∧
  limitationOf out.response =
    (if hp.length < 3 ∧ hp.length < hw.length then
      some (hypeDistanceLine env location ctx.cuisineClean ++ " Showing hype picks up to 25 miles.")
     else none) ∧
  picksOfResponse out.response =
    hypeFinish env ctx keys (if hp.length < 3 ∧ hp.length < hw.length then hw else hp)

set_option maxHeartbeats 2000000 in
/-- C5: in every mode, when the primary attempt yields fewer picks than the
mode-specific minimum, a second independent search-and-filter attempt runs
at the mode's maximum radius; the attempt that produced more results is
kept, and the widening note is surfaced exactly when the wide attempt
wins. -/
theorem c5_radius_widening (env : Env) (location : String) (cuisine : Option String)
    (center : Center) (hk : env.googleKey ≠ "") (hc : env.resolveCenter location = some center) :
    (∀ modeArg, modeArg ≠ "" → pyStrip (strLower modeArg) = "strict" →
      strictWideningSpec env location cuisine center (lrs env location cuisine modeArg)) ∧
    (∀ modeArg, modeArg ≠ "" → pyStrip (strLower modeArg) = "best" →
      bestWideningSpec env location cuisine center (lrs env location cuisine modeArg)) ∧
    (∀ modeArg, modeArg ≠ "" → pyStrip (strLower modeArg) = "hype" →
      hypeWideningSpec env location cuisine center (lrs env location cuisine modeArg)) := by
  refine ⟨?_, ?_, ?_⟩
  · intro modeArg h0 hm
    unfold strictWideningSpec
    simp only [lrs, if_neg hk, if_neg h0, hm]
    split
    · rename_i heq
      rw [hc] at heq
      exact Option.noConfusion heq
    · rename_i c2 heq
      rw [hc] at heq
      injection heq with hcc
      subst hcc
      rw [if_pos trivial]
      by_cases h2 :
          (List.take 5 (strictBaseline env (mkCtx location cuisine) center).1).length < 3
      · rw [if_pos h2, if_pos h2]
        by_cases h3 :
            (List.take 5 (strictBaseline env (mkCtx location cuisine) center).1).length <
              (strictWideAttempt env (mkCtx location cuisine) center).1.length
        · rw [if_pos h3, if_pos (And.intro h2 h3), if_pos (And.intro h2 h3)]
          exact ⟨rfl, rfl, rfl⟩
        · rw [if_neg h3, if_neg (fun hab => h3 hab.2), if_neg (fun hab => h3 hab.2)]
          exact ⟨rfl, rfl, rfl⟩
      · rw [if_neg h2, if_neg h2, if_neg (fun hab => h2 hab.1), if_neg (fun hab => h2 hab.1)]
        exact ⟨rfl, rfl, rfl⟩
  · intro modeArg h0 hm
    unfold bestWideningSpec
    simp only [lrs, if_neg hk, if_neg h0, hm]
    split
    · rename_i heq
      rw [hc] at heq
      exact Option.noConfusion heq
    · rename_i c2 heq
      rw [hc] at heq
      injection heq with hcc
      subst hcc
      rw [if_neg (show ("best" : String) ≠ "strict" by decide), if_pos trivial]
      by_cases h2 :
          (bestPrimaryAttempt env (mkCtx location cuisine) center).1.length <
            bestWantAtLeast (mkCtx location cuisine)
      · rw [if_pos h2, if_pos h2]
        by_cases h3 :
            (bestPrimaryAttempt env (mkCtx location cuisine) center).1.length <
              (bestWideAttempt env (mkCtx location cuisine) center).1.length
        · rw [if_pos h3, if_pos (And.intro h2 h3), if_pos (And.intro h2 h3)]
          exact ⟨rfl, rfl, rfl⟩
        · rw [if_neg h3, if_neg (fun hab => h3 hab.2), if_neg (fun hab => h3 hab.2)]
          exact ⟨rfl, rfl, rfl⟩
      · rw [if_neg h2, if_neg h2, if_neg (fun hab => h2 hab.1), if_neg (fun hab => h2 hab.1)]
        exact ⟨rfl, rfl, rfl⟩
  · intro modeArg h0 hm
    unfold hypeWideningSpec
    simp only [lrs, if_neg hk, if_neg h0, hm]
    split
    · rename_i heq
      rw [hc] at heq
      exact Option.noConfusion heq
    · rename_i c2 heq
      rw [hc] at heq
      injection heq with hcc
      subst hcc
      rw [if_neg (show ("hype" : String) ≠ "strict" by decide),
        if_neg (show ("hype" : String) ≠ "best" by decide), if_pos trivial]
      by_cases h2 : (hypePrimaryAttempt env (mkCtx location cuisine) center).1.length < 3
      · rw [if_pos h2, if_pos h2]
        by_cases h3 :
            (hypePrimaryAttempt env (mkCtx location cuisine) center).1.length <
              (hypeWideAttempt env (mkCtx location cuisine) center).1.length
        · rw [if_pos h3, if_pos (And.intro h2 h3), if_pos (And.intro h2 h3)]
          exact ⟨rfl, rfl, rfl⟩
        · rw [if_neg h3, if_neg (fun hab => h3 hab.2), if_neg (fun hab => h3 hab.2)]
          exact ⟨rfl, rfl, rfl⟩
      · rw [if_neg h2, if_neg h2, if_neg (fun hab => h2 hab.1), if_neg (fun hab => h2 hab.1)]
        exact ⟨rfl, rfl, rfl⟩

theorem c5_radius_widening_witness :
    probeEnv.googleKey ≠ "" ∧ probeEnv.resolveCenter "Town" = some probeCenter ∧
    ("strict" : String) ≠ "" ∧ pyStrip (strLower "strict") = "strict" ∧
    ("best" : String) ≠ "" ∧ pyStrip (strLower "best") = "best" ∧
    ("hype" : String) ≠ "" ∧ pyStrip (strLower "hype") = "hype" ∧
    strictWideningSpec probeEnv "Town" none probeCenter (lrs probeEnv "Town" none "strict") ∧
    bestWideningSpec probeEnv "Town" none probeCenter (lrs probeEnv "Town" none "best") ∧
    hypeWideningSpec probeEnv "Town" none probeCenter (lrs probeEnv "Town" none "hype") :=
  ⟨by decide, rfl, by decide, by decide, by decide, by decide, by decide, by decide,
    (c5_radius_widening probeEnv "Town" none probeCenter (by decide) rfl).1 "strict"
      (by decide) (by decide),
    (c5_radius_widening probeEnv "Town" none probeCenter (by decide) rfl).2.1 "best"
      (by decide) (by decide),
    (c5_radius_widening probeEnv "Town" none probeCenter (by decide) rfl).2.2 "hype"
      (by decide) (by decide)⟩

end LRS
